import Mathlib

/-!
Shallow embedding of the AI-Banking-Assistant repository.

The SQLite store of `src/database.py` is modelled as an in-memory state:
the `accounts` table becomes an association list from account id to
balance (`id` is a PRIMARY KEY, so well-formed states have no duplicate
ids), and the `transactions` table becomes a list of rows in insertion
order.  `REAL` balances and amounts are modelled as exact rationals `ℚ`;
timestamps (produced by `datetime.now().isoformat()` in the source) are
opaque strings passed in as explicit parameters.
-/

namespace AIBanking

/-- A row of the `transactions` table: `(account_id, type, amount, timestamp)`. -/
structure Txn where
  account_id : Int
  ty : String
  amount : ℚ
  timestamp : String
deriving DecidableEq, Repr

/-- The store state: the `accounts` table (id ↦ balance) and the
`transactions` table in insertion order. -/
structure DB where
  accounts : List (Int × ℚ)
  transactions : List Txn
deriving DecidableEq, Repr

/-- `SELECT balance FROM accounts WHERE id = ?` followed by `fetchone()`:
the first row with the given id, if any. -/
def getBalance (accounts : List (Int × ℚ)) (acct : Int) : Option ℚ :=
  (accounts.find? (fun p => p.1 == acct)).map Prod.snd

/-- `UPDATE accounts SET balance = ? WHERE id = ?`: every row whose id
matches gets the new balance (ids are unique in well-formed states). -/
def updateBalance (accounts : List (Int × ℚ)) (acct : Int) (bal : ℚ) :
    List (Int × ℚ) :=
  accounts.map (fun p => if p.1 == acct then (p.1, bal) else p)

/-- `BankingDatabase.get_account_balance` (src/database.py:94-106). -/
def DB.get_account_balance (db : DB) (account_id : Int) : Option ℚ :=
  getBalance db.accounts account_id

/-- `BankingDatabase.transfer_money` (src/database.py:120-184).
Reads both balances, checks existence and sufficiency, then performs the
two UPDATEs and appends the debit/credit rows.  Both balances are read
before either UPDATE runs, exactly as in the source.  Returns the new
state together with the `(success, message)` pair. -/
def DB.transfer_money (db : DB) (from_account_id to_account_id : Int)
    (amount : ℚ) (ts : String) : DB × Bool × String :=
  match getBalance db.accounts from_account_id with
  | none => (db, false, "Source account " ++ toString from_account_id ++ " not found")
  | some fromBal =>
    match getBalance db.accounts to_account_id with
    | none => (db, false, "Destination account " ++ toString to_account_id ++ " not found")
    | some toBal =>
      if fromBal < amount then
        (db, false, "Insufficient balance. Available: $" ++ toString fromBal)
      else
        let new_from_balance := fromBal - amount
        let new_to_balance := toBal + amount
        let accounts1 := updateBalance db.accounts from_account_id new_from_balance
        let accounts2 := updateBalance accounts1 to_account_id new_to_balance
        ({ accounts := accounts2,
           transactions := db.transactions ++
             [⟨from_account_id, "debit", amount, ts⟩,
              ⟨to_account_id, "credit", amount, ts⟩] },
         true, "Successfully transferred $" ++ toString amount)

/-- The sum of all account balances in the ledger. -/
def sumBalances (db : DB) : ℚ :=
  (db.accounts.map Prod.snd).sum

theorem getBalance_cons (p : Int × ℚ) (rest : List (Int × ℚ)) (a : Int) :
    getBalance (p :: rest) a =
      if p.1 == a then some p.2 else getBalance rest a := by
  by_cases h : p.1 = a
  · simp [getBalance, List.find?_cons_of_pos, h]
  · simp [getBalance, List.find?_cons_of_neg, h]

theorem updateBalance_cons (p : Int × ℚ) (rest : List (Int × ℚ)) (a : Int) (v : ℚ) :
    updateBalance (p :: rest) a v =
      (if p.1 == a then (p.1, v) else p) :: updateBalance rest a v := rfl

theorem getBalance_not_mem (l : List (Int × ℚ)) (a : Int)
    (h : a ∉ l.map Prod.fst) : getBalance l a = none := by
  induction l with
  | nil => rfl
  | cons p rest ih =>
    simp only [List.map_cons, List.mem_cons, not_or] at h
    rw [getBalance_cons]
    have hpa : ¬ p.1 = a := fun e => h.1 e.symm
    simp only [beq_iff_eq, hpa, if_false]
    exact ih h.2

theorem getBalance_updateBalance_ne (l : List (Int × ℚ)) (a b : Int) (v : ℚ)
    (h : b ≠ a) : getBalance (updateBalance l a v) b = getBalance l b := by
  induction l with
  | nil => rfl
  | cons p rest ih =>
    rw [updateBalance_cons, getBalance_cons, getBalance_cons]
    by_cases hpa : p.1 = a
    · have hpb : ¬ p.1 = b := by rw [hpa]; exact fun e => h e.symm
      simp [hpa, hpb, h.symm, ih]
    · by_cases hpb : p.1 = b
      · simp [hpa, hpb, h, ih]
      · simp [hpa, hpb, ih]

theorem getBalance_updateBalance_self (l : List (Int × ℚ)) (a : Int) (v : ℚ)
    (h : (getBalance l a).isSome) :
    getBalance (updateBalance l a v) a = some v := by
  induction l with
  | nil => simp [getBalance] at h
  | cons p rest ih =>
    rw [updateBalance_cons, getBalance_cons]
    by_cases hpa : p.1 = a
    · simp [hpa]
    · rw [getBalance_cons] at h
      simp only [beq_iff_eq, hpa, if_false] at h ⊢
      exact ih h

theorem updateBalance_keys (l : List (Int × ℚ)) (a : Int) (v : ℚ) :
    (updateBalance l a v).map Prod.fst = l.map Prod.fst := by
  induction l with
  | nil => rfl
  | cons p rest ih =>
    rw [updateBalance_cons]
    by_cases hpa : p.1 = a <;> simp [hpa, ih]

theorem updateBalance_not_mem (l : List (Int × ℚ)) (a : Int) (v : ℚ)
    (h : a ∉ l.map Prod.fst) : updateBalance l a v = l := by
  induction l with
  | nil => rfl
  | cons p rest ih =>
    simp only [List.map_cons, List.mem_cons, not_or] at h
    rw [updateBalance_cons]
    have hpa : ¬ p.1 = a := fun e => h.1 e.symm
    simp [hpa, ih h.2]

theorem sum_updateBalance (l : List (Int × ℚ)) (a : Int) (b v : ℚ)
    (hnd : (l.map Prod.fst).Nodup) (h : getBalance l a = some b) :
    ((updateBalance l a v).map Prod.snd).sum = (l.map Prod.snd).sum - b + v := by
  induction l with
  | nil => simp [getBalance] at h
  | cons p rest ih =>
    simp only [List.map_cons, List.nodup_cons] at hnd
    rw [getBalance_cons] at h
    rw [updateBalance_cons]
    by_cases hpa : p.1 = a
    · simp only [beq_iff_eq, hpa, if_true] at h ⊢
      have hrest : updateBalance rest a v = rest :=
        updateBalance_not_mem rest a v (by rw [← hpa]; exact hnd.1)
      rw [hrest]
      simp only [List.map_cons, List.sum_cons]
      cases h
      ring
    · simp only [beq_iff_eq, hpa, if_false] at h ⊢
      simp only [List.map_cons, List.sum_cons, ih hnd.2 h]
      ring

theorem append_ne_empty_left (s t : String) (hs : s.data ≠ []) : s ++ t ≠ "" := by
  cases s with
  | mk l =>
    cases t with
    | mk m =>
      intro he
      apply hs
      have hlm : l ++ m = [] := congrArg String.data he
      exact (List.append_eq_nil.mp hlm).1

theorem transfer_money_src_missing (db : DB) (f t : Int) (a : ℚ) (ts : String)
    (hf : getBalance db.accounts f = none) :
    db.transfer_money f t a ts =
      (db, false, "Source account " ++ toString f ++ " not found") := by
  unfold DB.transfer_money
  rw [hf]

theorem transfer_money_dst_missing (db : DB) (f t : Int) (a : ℚ) (ts : String)
    (fb : ℚ) (hf : getBalance db.accounts f = some fb)
    (ht : getBalance db.accounts t = none) :
    db.transfer_money f t a ts =
      (db, false, "Destination account " ++ toString t ++ " not found") := by
  unfold DB.transfer_money
  rw [hf, ht]

theorem transfer_money_insufficient (db : DB) (f t : Int) (a : ℚ) (ts : String)
    (fb tb : ℚ) (hf : getBalance db.accounts f = some fb)
    (ht : getBalance db.accounts t = some tb) (hlt : fb < a) :
    db.transfer_money f t a ts =
      (db, false, "Insufficient balance. Available: $" ++ toString fb) := by
  unfold DB.transfer_money
  rw [hf, ht]
  simp [hlt]

theorem transfer_money_success_eq (db : DB) (f t : Int) (a : ℚ) (ts : String)
    (fb tb : ℚ) (hf : getBalance db.accounts f = some fb)
    (ht : getBalance db.accounts t = some tb) (hlt : ¬ fb < a) :
    db.transfer_money f t a ts =
      ({ accounts := updateBalance (updateBalance db.accounts f (fb - a)) t (tb + a),
         transactions := db.transactions ++
           [⟨f, "debit", a, ts⟩, ⟨t, "credit", a, ts⟩] },
       true, "Successfully transferred $" ++ toString a) := by
  unfold DB.transfer_money
  rw [hf, ht]
  simp [hlt]

/-- C1 counterexample: a self-transfer of 3 on a single account holding 5
succeeds and raises the sum of all balances from 5 to 8, because the
credit UPDATE (computed from the balance read before any update)
overwrites the debit UPDATE on the same row.  So the sum of balances is
not invariant across every `transfer_money` call. -/
theorem transfer_money_sum_not_invariant :
    sumBalances ((DB.mk [(1, 5)] []).transfer_money 1 1 3 "t").1 ≠
      sumBalances (DB.mk [(1, 5)] []) := by
  norm_num [DB.transfer_money, getBalance, updateBalance, sumBalances]

/-- C1 (amended): for every `transfer_money` call with distinct source and
destination accounts, on any ledger whose account ids are unique, the sum
of all balances after the call equals the sum before the call, whether it
returns success or failure.  (A self-transfer instead increases the sum by
the transferred amount.) -/
theorem transfer_money_preserves_sum_of_ne (db : DB) (f t : Int) (a : ℚ)
    (ts : String) (hnd : (db.accounts.map Prod.fst).Nodup) (hft : f ≠ t) :
    sumBalances (db.transfer_money f t a ts).1 = sumBalances db := by
  cases hf : getBalance db.accounts f with
  | none => rw [transfer_money_src_missing db f t a ts hf]
  | some fb =>
    cases ht : getBalance db.accounts t with
    | none => rw [transfer_money_dst_missing db f t a ts fb hf ht]
    | some tb =>
      by_cases hlt : fb < a
      · rw [transfer_money_insufficient db f t a ts fb tb hf ht hlt]
      · rw [transfer_money_success_eq db f t a ts fb tb hf ht hlt]
        have h1 : getBalance (updateBalance db.accounts f (fb - a)) t = some tb := by
          rw [getBalance_updateBalance_ne _ _ _ _ (Ne.symm hft)]
          exact ht
        have hnd1 : ((updateBalance db.accounts f (fb - a)).map Prod.fst).Nodup := by
          rw [updateBalance_keys]
          exact hnd
        show ((updateBalance (updateBalance db.accounts f (fb - a)) t (tb + a)).map
          Prod.snd).sum = sumBalances db
        rw [sum_updateBalance _ t tb (tb + a) hnd1 h1,
            sum_updateBalance _ f fb (fb - a) hnd hf]
        unfold sumBalances
        ring

theorem transfer_money_preserves_sum_of_ne_witness :
    sumBalances ((DB.mk [(1, 5), (2, 7)] []).transfer_money 1 2 3 "t").1 =
      sumBalances (DB.mk [(1, 5), (2, 7)] []) :=
  transfer_money_preserves_sum_of_ne (DB.mk [(1, 5), (2, 7)] []) 1 2 3 "t"
    (by decide) (by decide)

/-- C2: every successful `transfer_money` call appends exactly two rows to
the transaction log — a "debit" row on the source account and a "credit"
row on the destination account, both carrying the transferred amount and
the same timestamp — and leaves every pre-existing row unchanged. -/
theorem transfer_money_success_appends_debit_credit (db : DB) (f t : Int)
    (a : ℚ) (ts : String) (h : (db.transfer_money f t a ts).2.1 = true) :
    (db.transfer_money f t a ts).1.transactions =
      db.transactions ++ [⟨f, "debit", a, ts⟩, ⟨t, "credit", a, ts⟩] := by
  cases hf : getBalance db.accounts f with
  | none => rw [transfer_money_src_missing db f t a ts hf] at h; simp at h
  | some fb =>
    cases ht : getBalance db.accounts t with
    | none => rw [transfer_money_dst_missing db f t a ts fb hf ht] at h; simp at h
    | some tb =>
      by_cases hlt : fb < a
      · rw [transfer_money_insufficient db f t a ts fb tb hf ht hlt] at h
        simp at h
      · rw [transfer_money_success_eq db f t a ts fb tb hf ht hlt]

theorem transfer_money_success_appends_debit_credit_witness :
    ((DB.mk [(1, 5), (2, 7)] []).transfer_money 1 2 3 "t").1.transactions =
      [] ++ [⟨1, "debit", 3, "t"⟩, ⟨2, "credit", 3, "t"⟩] :=
  transfer_money_success_appends_debit_credit (DB.mk [(1, 5), (2, 7)] [])
    1 2 3 "t" (by decide)

/-- C3: whenever the source account is missing, the destination account is
missing, or the source balance is strictly below the requested amount,
`transfer_money` returns failure with a non-empty message and leaves the
whole store (all balances and the entire transaction log) unchanged. -/
theorem transfer_money_failure_preserves_state (db : DB) (f t : Int) (a : ℚ)
    (ts : String)
    (h : getBalance db.accounts f = none ∨ getBalance db.accounts t = none ∨
         ∃ fb, getBalance db.accounts f = some fb ∧ fb < a) :
    (db.transfer_money f t a ts).2.1 = false ∧
    (db.transfer_money f t a ts).1 = db ∧
    (db.transfer_money f t a ts).2.2 ≠ "" := by
  cases hf : getBalance db.accounts f with
  | none =>
    rw [transfer_money_src_missing db f t a ts hf]
    exact ⟨rfl, rfl, append_ne_empty_left _ _ (by simp [String.append])⟩
  | some fb =>
    cases ht : getBalance db.accounts t with
    | none =>
      rw [transfer_money_dst_missing db f t a ts fb hf ht]
      exact ⟨rfl, rfl, append_ne_empty_left _ _ (by simp [String.append])⟩
    | some tb =>
      have hlt : fb < a := by
        rcases h with h | h | ⟨fb', hfb', hlt'⟩
        · rw [hf] at h; cases h
        · rw [ht] at h; cases h
        · rw [hf] at hfb'; cases hfb'; exact hlt'
      rw [transfer_money_insufficient db f t a ts fb tb hf ht hlt]
      exact ⟨rfl, rfl, append_ne_empty_left _ _ (by simp [String.append])⟩

theorem transfer_money_failure_preserves_state_witness :
    ((DB.mk [(1, 5)] []).transfer_money 1 2 10 "t").2.1 = false ∧
    ((DB.mk [(1, 5)] []).transfer_money 1 2 10 "t").1 = DB.mk [(1, 5)] [] ∧
    ((DB.mk [(1, 5)] []).transfer_money 1 2 10 "t").2.2 ≠ "" :=
  transfer_money_failure_preserves_state (DB.mk [(1, 5)] []) 1 2 10 "t"
    (Or.inr (Or.inl (by decide)))

/-- C9: a self-transfer on an existing account whose balance covers the
amount succeeds, leaves the account's final balance at its original
balance plus the amount (the credit UPDATE, computed from the pre-read
balance, overwrites the debit on the same row), and still logs one debit
and one credit row for that account. -/
theorem transfer_money_self_transfer (db : DB) (acct : Int) (amt b : ℚ)
    (ts : String) (hb : getBalance db.accounts acct = some b) (hle : amt ≤ b) :
    (db.transfer_money acct acct amt ts).2.1 = true ∧
    getBalance (db.transfer_money acct acct amt ts).1.accounts acct =
      some (b + amt) ∧
    (db.transfer_money acct acct amt ts).1.transactions =
      db.transactions ++ [⟨acct, "debit", amt, ts⟩, ⟨acct, "credit", amt, ts⟩] := by
  have hlt : ¬ b < amt := not_lt.mpr hle
  rw [transfer_money_success_eq db acct acct amt ts b b hb hb hlt]
  have h1 : getBalance (updateBalance db.accounts acct (b - amt)) acct =
      some (b - amt) :=
    getBalance_updateBalance_self _ _ _ (by rw [hb]; rfl)
  have h2 : getBalance
      (updateBalance (updateBalance db.accounts acct (b - amt)) acct (b + amt))
      acct = some (b + amt) :=
    getBalance_updateBalance_self _ _ _ (by rw [h1]; rfl)
  exact ⟨rfl, h2, rfl⟩

theorem transfer_money_self_transfer_witness :
    ((DB.mk [(1, 5)] []).transfer_money 1 1 3 "t").2.1 = true ∧
    getBalance ((DB.mk [(1, 5)] []).transfer_money 1 1 3 "t").1.accounts 1 =
      some (5 + 3) ∧
    ((DB.mk [(1, 5)] []).transfer_money 1 1 3 "t").1.transactions =
      [] ++ [⟨1, "debit", 3, "t"⟩, ⟨1, "credit", 3, "t"⟩] :=
  transfer_money_self_transfer (DB.mk [(1, 5)] []) 1 3 5 "t" (by decide)
    (by decide)

/-- C10: transferring exactly the source account's full balance between
distinct existing accounts passes the strict `<` insufficient-funds check,
returns success, and leaves the source balance at exactly zero. -/
theorem transfer_money_full_balance (db : DB) (f t : Int) (b tb : ℚ)
    (ts : String) (hft : f ≠ t) (hf : getBalance db.accounts f = some b)
    (ht : getBalance db.accounts t = some tb) :
    (db.transfer_money f t b ts).2.1 = true ∧
    getBalance (db.transfer_money f t b ts).1.accounts f = some 0 := by
  have hlt : ¬ b < b := lt_irrefl b
  rw [transfer_money_success_eq db f t b ts b tb hf ht hlt]
  have h1 : getBalance (updateBalance db.accounts f (b - b)) f = some (b - b) :=
    getBalance_updateBalance_self _ _ _ (by rw [hf]; rfl)
  have h2 : getBalance
      (updateBalance (updateBalance db.accounts f (b - b)) t (tb + b)) f =
      some (b - b) := by
    rw [getBalance_updateBalance_ne _ _ _ _ hft]
    exact h1
  refine ⟨rfl, ?_⟩
  rw [h2, sub_self]

theorem transfer_money_full_balance_witness :
    ((DB.mk [(1, 5), (2, 7)] []).transfer_money 1 2 5 "t").2.1 = true ∧
    getBalance ((DB.mk [(1, 5), (2, 7)] []).transfer_money 1 2 5 "t").1.accounts
      1 = some 0 :=
  transfer_money_full_balance (DB.mk [(1, 5), (2, 7)] []) 1 2 5 7 "t"
    (by decide) (by decide) (by decide)

/-! ### Remaining store queries (src/database.py) -/

/-- Insertion step for sorting transaction rows by timestamp descending
(SQLite `ORDER BY timestamp DESC` under BINARY collation, modelled as the
character-wise order on strings). -/
def insertTsDesc (t : Txn) : List Txn → List Txn
  | [] => [t]
  | h :: rest =>
    if h.timestamp < t.timestamp then t :: h :: rest
    else h :: insertTsDesc t rest

/-- Sort transaction rows by timestamp descending. -/
def sortTsDesc : List Txn → List Txn
  | [] => []
  | t :: rest => insertTsDesc t (sortTsDesc rest)

/-- `BankingDatabase.get_recent_transactions` (src/database.py:186-204):
the account's rows ordered by timestamp descending, limited to `limit`. -/
def DB.get_recent_transactions (db : DB) (account_id : Int) (limit : Nat) :
    List Txn :=
  (sortTsDesc (db.transactions.filter
    (fun t => t.account_id == account_id))).take limit

/-- `BankingDatabase.get_transaction_summary` (src/database.py:206-235):
rows of the account with `timestamp >= threshold`, grouped by type with
total amount and count.  The threshold computation
`(datetime.now() - timedelta(days=days)).isoformat()` is real-time date
arithmetic; the resulting threshold string is supplied by the caller. -/
def DB.get_transaction_summary (db : DB) (account_id : Int)
    (threshold : String) : List (String × ℚ × Nat) :=
  let rows := db.transactions.filter
    (fun t => t.account_id == account_id && !decide (t.timestamp < threshold))
  (rows.map (fun t => t.ty)).dedup.map (fun ty =>
    let g := rows.filter (fun t => t.ty == ty)
    (ty, (g.map (fun t => t.amount)).sum, g.length))

/-! ### Operation library (src/tools/banking_operations.py) -/

/-- `BankingOperations.get_balance` (src/tools/banking_operations.py:19-28):
returns `(balance, error_message)`. -/
def BankingOperations.get_balance (db : DB) (account_id : Int) :
    Option ℚ × Option String :=
  match db.get_account_balance account_id with
  | none => (none, some ("Account " ++ toString account_id ++ " not found"))
  | some b => (some b, none)

/-- `BankingOperations.transfer_money` (src/tools/banking_operations.py:30-49):
business-policy gate (amount must be positive and at most the 1,000,000
safety limit) in front of the store's transfer. -/
def BankingOperations.transfer_money (db : DB)
    (from_account_id to_account_id : Int) (amount : ℚ) (ts : String) :
    DB × Bool × String :=
  if amount ≤ 0 then (db, false, "Amount must be positive")
  else if amount > 1000000 then
    (db, false, "Amount exceeds maximum transfer limit")
  else db.transfer_money from_account_id to_account_id amount ts

/-- `BankingOperations.get_recent_transactions`
(src/tools/banking_operations.py:51-57). -/
def BankingOperations.get_recent_transactions (db : DB) (account_id : Int)
    (limit : Nat) : List Txn :=
  db.get_recent_transactions account_id limit

/-- The dict returned by `BankingOperations.simulate_transaction`. -/
structure SimResult where
  affordable : Bool
  current_balance : ℚ
  projected_balance : ℚ
  amount : ℚ
  error : Option String := none
deriving DecidableEq, Repr

/-- `BankingOperations.simulate_transaction`
(src/tools/banking_operations.py:59-87): read-only affordability check.
When `get_balance` reports no error its balance component is necessarily
`some`; `getD 0` totalizes the Python tuple unpacking in that branch. -/
def BankingOperations.simulate_transaction (db : DB) (account_id : Int)
    (amount : ℚ) : SimResult :=
  let r := BankingOperations.get_balance db account_id
  match r.2 with
  | some err =>
    { affordable := false, current_balance := 0, projected_balance := -amount,
      amount := amount, error := some err }
  | none =>
    let current_balance := r.1.getD 0
    { affordable := decide (current_balance - amount ≥ 0),
      current_balance := current_balance,
      projected_balance := current_balance - amount,
      amount := amount, error := none }

/-- `BankingOperations.get_insights` (src/tools/banking_operations.py:89-96). -/
def BankingOperations.get_insights (db : DB) (account_id : Int)
    (threshold : String) : List (String × ℚ × Nat) :=
  db.get_transaction_summary account_id threshold

/-! ### Executor (src/mcp/executor.py)

Python parameter values are dynamically typed; the executor only ever
reads account ids, amounts, a row limit and a time period out of the
parameter dict, and tests them for Python truthiness (`None` and `0` are
falsy).  `truthyInt`/`truthyRat` model `if not x` on those values, and
`pyOr` models Python's short-circuiting `a or b` on them. -/

/-- A time-period parameter as the executor may receive it: an int, a
float, a string, or any other (unparsable) value. -/
inductive TimePeriod where
  | int (n : Int)
  | float (q : ℚ)
  | str (s : String)
  | other
deriving DecidableEq, Repr

/-- Python `int()` on a float: truncation toward zero. -/
def ratTrunc (q : ℚ) : Int :=
  if q < 0 then -((-q).floor) else q.floor

/-- The first maximal run of decimal digits in a character list —
`re.search(r'(\d+)', s)`. -/
def firstDigitRun : List Char → Option (List Char)
  | [] => none
  | c :: rest =>
    if c.isDigit then some (c :: rest.takeWhile Char.isDigit)
    else firstDigitRun rest

/-- Numeric value of a digit run. -/
def digitsToNat (l : List Char) : Nat :=
  l.foldl (fun acc c => acc * 10 + (c.toNat - 48)) 0

/-- `Executor._parse_time_period` (src/mcp/executor.py:184-199): numeric
inputs are truncated to an integer, textual inputs yield their first
embedded digit run, and everything else defaults to 30. -/
def parse_time_period : TimePeriod → Int
  | .int n => n
  | .float q => ratTrunc q
  | .str s =>
    match firstDigitRun s.data with
    | some ds => (digitsToNat ds : Int)
    | none => 30
  | .other => 30

/-- Python `str.lower()` (ASCII-relevant part), applied character-wise. -/
def pyLower (s : String) : String := ⟨s.data.map Char.toLower⟩

/-- The `tool_mapping` dict of `Executor._execute_tool`
(src/mcp/executor.py:59-76). -/
def tool_mapping : List (String × String) :=
  [("get_balance", "get_balance"),
   ("account_balance_check", "get_balance"),
   ("check_balance", "get_balance"),
   ("balance_check", "get_balance"),
   ("transfer_money", "transfer_money"),
   ("transfer_funds", "transfer_money"),
   ("transfer", "transfer_money"),
   ("get_transactions", "get_transactions"),
   ("fetch_transactions", "get_transactions"),
   ("recent_transactions", "get_transactions"),
   ("simulate_transaction", "simulate_transaction"),
   ("what_if", "simulate_transaction"),
   ("affordability_check", "simulate_transaction"),
   ("get_insights", "get_insights"),
   ("spending_insights", "get_insights"),
   ("insights", "get_insights")]

/-- `tool_mapping.get(tool_name.lower(), tool_name)`
(src/mcp/executor.py:82). -/
def normalizeTool (tool_name : String) : String :=
  match tool_mapping.find? (fun p => p.1 == pyLower tool_name) with
  | some p => p.2
  | none => tool_name

/-- Python truthiness of an optional integer: `None` and `0` are falsy. -/
def truthyInt : Option Int → Option Int
  | none => none
  | some n => if n == 0 then none else some n

/-- Python truthiness of an optional number: `None` and `0` are falsy. -/
def truthyRat : Option ℚ → Option ℚ
  | none => none
  | some q => if q == 0 then none else some q

/-- Python `a or b` on optional integers. -/
def pyOr (a b : Option Int) : Option Int :=
  match truthyInt a with
  | some x => some x
  | none => b

/-- The parameter dict of a plan step, restricted to the keys the
executor reads. -/
structure Params where
  account_id : Option Int := none
  from_account : Option Int := none
  recipient_account : Option Int := none
  to_account : Option Int := none
  amount : Option ℚ := none
  limit : Option Nat := none
  time_period : Option TimePeriod := none
deriving DecidableEq, Repr

/-- The result dict a tool execution returns: a `success` flag plus
whichever payload keys the executed branch sets. -/
structure ToolResult where
  success : Bool
  error : Option String := none
  balance : Option ℚ := none
  account_id : Option Int := none
  amount : Option ℚ := none
  from_account : Option Int := none
  to_account : Option Int := none
  new_balance : Option ℚ := none
  message : Option String := none
  transactions : Option (List Txn) := none
  affordable : Option Bool := none
  current_balance : Option ℚ := none
  projected_balance : Option ℚ := none
  summary : Option (List (String × ℚ × Nat)) := none
deriving DecidableEq, Repr

/-- `Executor._get_default_account_id` (src/mcp/executor.py:201-214):
`SELECT id FROM accounts LIMIT 1`. -/
def get_default_account_id (db : DB) : Option Int :=
  match db.accounts with
  | [] => none
  | p :: _ => some p.1

/-- `Executor._execute_tool` (src/mcp/executor.py:52-182).  `now` is the
timestamp a successful transfer would log; `thresholdOf days` is the
`(datetime.now() - timedelta(days=days)).isoformat()` string used by the
insights branch.  The `tool_name is None` guard of the source is
discharged by the `String` type here (the caller passes a present name);
no modelled branch raises, mirroring the blanket `try/except` that turns
exceptions into failure results. -/
def Executor.execute_tool (db : DB) (tool_name : String) (parameters : Params)
    (now : String) (thresholdOf : Int → String) : DB × ToolResult :=
  let normalized_tool := normalizeTool tool_name
  if normalized_tool == "get_balance" then
    match truthyInt parameters.account_id with
    | none => (db, { success := false, error := some ("account_id required") })
    | some account_id =>
      match BankingOperations.get_balance db account_id with
      | (_, some err) =>
        (db, { success := false, error := some err,
               account_id := some account_id })
      | (balance, none) =>
        (db, { success := true, balance := balance,
               account_id := some account_id })
  else if normalized_tool == "transfer_money" then
    let from_account := pyOr parameters.account_id parameters.from_account
    let to_account := pyOr parameters.recipient_account parameters.to_account
    match truthyInt from_account, truthyInt to_account,
          truthyRat parameters.amount with
    | some f, some t, some amount =>
      let r := BankingOperations.transfer_money db f t amount now
      if r.2.1 then
        (r.1, { success := true, amount := some amount,
                from_account := some f, to_account := some t,
                new_balance := (BankingOperations.get_balance r.1 f).1,
                message := some r.2.2 })
      else (r.1, { success := false, error := some r.2.2 })
    | _, _, _ =>
      (db, { success := false, error := some ("Missing required parameters") })
  else if normalized_tool == "get_transactions" then
    let limit := parameters.limit.getD 10
    let acct0 :=
      match truthyInt parameters.account_id with
      | some a => some a
      | none => get_default_account_id db
    match truthyInt acct0 with
    | none =>
      (db, { success := false,
             error := some ("account_id required. Please specify an account (e.g., 'account 1')") })
    | some account_id =>
      (db, { success := true,
             transactions :=
               some (BankingOperations.get_recent_transactions db account_id limit),
             account_id := some account_id })
  else if normalized_tool == "simulate_transaction" then
    match truthyInt parameters.account_id, truthyRat parameters.amount with
    | some account_id, some amount =>
      let result := BankingOperations.simulate_transaction db account_id amount
      (db, { success := true, affordable := some result.affordable,
             current_balance := some result.current_balance,
             projected_balance := some result.projected_balance,
             amount := some result.amount, error := result.error })
    | _, _ =>
      (db, { success := false, error := some ("Missing required parameters") })
  else if normalized_tool == "get_insights" then
    let time_period := parameters.time_period.getD (TimePeriod.int 30)
    let acct0 :=
      match truthyInt parameters.account_id with
      | some a => some a
      | none => get_default_account_id db
    match truthyInt acct0 with
    | none =>
      (db, { success := false,
             error := some ("account_id required. Please specify an account (e.g., 'account 7')") })
    | some account_id =>
      let days := parse_time_period time_period
      (db, { success := true,
             summary :=
               some (BankingOperations.get_insights db account_id (thresholdOf days)),
             account_id := some account_id })
  else
    (db, { success := false,
           error := some ("Unknown tool: " ++ tool_name ++ " (normalized: " ++
             normalized_tool ++ ")") })

/-- A plan step as `Executor.execute_plan` reads it:
`step.get("step_id")`, `step.get("tool")`, `step.get("parameters", {})`. -/
structure Step where
  step_id : Option Int := none
  tool : Option String := none
  parameters : Params := {}

/-- The result key `f"step_\x7bstep_id\x7d"`; a missing id prints as
Python's `None`. -/
def stepKey : Option Int → String
  | some n => "step_" ++ toString n
  | none => "step_None"

/-- `Executor.execute_plan` (src/mcp/executor.py:20-50): every step is
executed in order; a step with a falsy tool name (missing or empty)
contributes a failure result and the loop continues.  The per-step
results are collected in order under their `step_i` keys (the Python
top-level `all_results.update(result)` merge is a presentation detail of
the same per-step results and is not modelled). -/
def Executor.execute_plan (db : DB) (steps : List Step) (now : String)
    (thresholdOf : Int → String) : DB × List (String × ToolResult) :=
  match steps with
  | [] => (db, [])
  | step :: rest =>
    let r :=
      match step.tool with
      | none =>
        (db, { success := false,
               error := some ("Tool name is missing from plan step") : ToolResult })
      | some tool_name =>
        if tool_name == "" then
          (db, { success := false,
                 error := some ("Tool name is missing from plan step") })
        else Executor.execute_tool db tool_name step.parameters now thresholdOf
    let rest_r := Executor.execute_plan r.1 rest now thresholdOf
    (rest_r.1, (stepKey step.step_id, r.2) :: rest_r.2)


/-! ### Claims about the operation library and the executor -/

/-- C5: the operation library's transfer rejects amount ≤ 0 and amount
above the 1,000,000 safety limit with a policy message and an unchanged
store, and delegates every amount strictly between those bounds to the
store's transfer operation. -/
theorem ops_transfer_money_policy_gate (db : DB) (f t : Int) (a : ℚ)
    (ts : String) :
    (a ≤ 0 → BankingOperations.transfer_money db f t a ts =
      (db, false, "Amount must be positive")) ∧
    (a > 1000000 → BankingOperations.transfer_money db f t a ts =
      (db, false, "Amount exceeds maximum transfer limit")) ∧
    (0 < a → a < 1000000 → BankingOperations.transfer_money db f t a ts =
      db.transfer_money f t a ts) := by
  refine ⟨fun h => ?_, fun h => ?_, fun h1 h2 => ?_⟩
  · simp [BankingOperations.transfer_money, h]
  · have h0 : ¬ a ≤ 0 := not_le.mpr (lt_trans (by norm_num) h)
    simp [BankingOperations.transfer_money, h0, h]
  · have h0 : ¬ a ≤ 0 := not_le.mpr h1
    have hbig : ¬ a > 1000000 := not_lt.mpr (le_of_lt h2)
    simp [BankingOperations.transfer_money, h0, hbig]

theorem ops_transfer_money_policy_gate_witness :
    BankingOperations.transfer_money (DB.mk [(1, 5)] []) 1 2 (-1) "t" =
      (DB.mk [(1, 5)] [], false, "Amount must be positive") ∧
    BankingOperations.transfer_money (DB.mk [(1, 5)] []) 1 2 2000000 "t" =
      (DB.mk [(1, 5)] [], false, "Amount exceeds maximum transfer limit") ∧
    BankingOperations.transfer_money (DB.mk [(1, 5)] []) 1 2 3 "t" =
      (DB.mk [(1, 5)] []).transfer_money 1 2 3 "t" :=
  ⟨(ops_transfer_money_policy_gate (DB.mk [(1, 5)] []) 1 2 (-1) "t").1
     (by norm_num),
   (ops_transfer_money_policy_gate (DB.mk [(1, 5)] []) 1 2 2000000 "t").2.1
     (by norm_num),
   (ops_transfer_money_policy_gate (DB.mk [(1, 5)] []) 1 2 3 "t").2.2
     (by norm_num) (by norm_num)⟩

/-- C6: simulate_transaction returns only a result and no store, so it
never mutates a balance or transaction and repeated calls on the same
state agree; on an existing account it reports the stored balance,
projects currentBalance - amount, and flags affordability exactly when
the projection is ≥ 0; on a missing account it reports a result tagged
with an error whose current balance is 0 and whose projected balance is
-amount. -/
theorem simulate_transaction_spec (db : DB) (account_id : Int) (amount : ℚ) :
    (∀ b, db.get_account_balance account_id = some b →
      BankingOperations.simulate_transaction db account_id amount =
        { affordable := decide (b - amount ≥ 0), current_balance := b,
          projected_balance := b - amount, amount := amount, error := none } ∧
      ((BankingOperations.simulate_transaction db account_id amount).affordable
        = true ↔ b - amount ≥ 0)) ∧
    (db.get_account_balance account_id = none →
      BankingOperations.simulate_transaction db account_id amount =
        { affordable := false, current_balance := 0,
          projected_balance := -amount, amount := amount,
          error := some ("Account " ++ toString account_id ++ " not found") }) := by
  constructor
  · intro b hb
    have hg : BankingOperations.get_balance db account_id = (some b, none) := by
      simp [BankingOperations.get_balance, hb]
    constructor
    · simp [BankingOperations.simulate_transaction, hg]
    · simp [BankingOperations.simulate_transaction, hg]
  · intro hb
    have hg : BankingOperations.get_balance db account_id =
        (none, some ("Account " ++ toString account_id ++ " not found")) := by
      simp [BankingOperations.get_balance, hb]
    simp [BankingOperations.simulate_transaction, hg]

theorem simulate_transaction_spec_witness :
    (BankingOperations.simulate_transaction (DB.mk [(1, 4900)] []) 1 10000 =
      { affordable := decide ((4900 : ℚ) - 10000 ≥ 0), current_balance := 4900,
        projected_balance := (4900 : ℚ) - 10000, amount := 10000,
        error := none } ∧
     ((BankingOperations.simulate_transaction (DB.mk [(1, 4900)] []) 1
        10000).affordable = true ↔ (4900 : ℚ) - 10000 ≥ 0)) ∧
    BankingOperations.simulate_transaction (DB.mk [] []) 1 10000 =
      { affordable := false, current_balance := 0,
        projected_balance := -(10000 : ℚ), amount := 10000,
        error := some ("Account " ++ toString (1 : Int) ++ " not found") } :=
  ⟨(simulate_transaction_spec (DB.mk [(1, 4900)] []) 1 10000).1 4900 (by decide),
   (simulate_transaction_spec (DB.mk [] []) 1 10000).2 (by decide)⟩

/-- C8: the time-period normalization is total — integers pass through,
floats are truncated toward zero, strings yield their first embedded
digit run and default to 30 when they have none, and any other value
yields 30 — and it is idempotent: normalizing its own output returns
that output unchanged. -/
theorem parse_time_period_total_idempotent :
    (∀ n : Int, parse_time_period (TimePeriod.int n) = n) ∧
    (∀ q : ℚ, parse_time_period (TimePeriod.float q) = ratTrunc q) ∧
    parse_time_period (TimePeriod.str "about a month") = 30 ∧
    parse_time_period (TimePeriod.str "10 days") = 10 ∧
    parse_time_period TimePeriod.other = 30 ∧
    (∀ tp, parse_time_period (TimePeriod.int (parse_time_period tp)) =
      parse_time_period tp) :=
  ⟨fun _ => rfl, fun _ => rfl, by decide, by decide, rfl, fun _ => rfl⟩

/-- C4 counterexample: with an account in the store, a "balance_check"
step carrying no account_id is answered with a failed result demanding an
account_id — not, as claimed, a successful balance result for the first
account.  The first-account fallback exists only in the transactions and
insights branches of the executor. -/
theorem balance_check_no_fallback :
    (Executor.execute_tool (DB.mk [(1, 100)] []) "balance_check" {} "t"
      (fun _ => "")).2 =
      { success := false, error := some ("account_id required") } := by
  decide

/-- C4 (amended): a plan step whose tool name normalizes to the balance
operation but carries no (truthy) account_id receives the failure
result with error "account_id required" and an unchanged store; the
executor does not fall back to the first stored account for balance
steps. -/
theorem balance_tool_requires_account_id (db : DB) (tool_name : String)
    (parameters : Params) (now : String) (thof : Int → String)
    (hn : normalizeTool tool_name = "get_balance")
    (ha : truthyInt parameters.account_id = none) :
    Executor.execute_tool db tool_name parameters now thof =
      (db, { success := false, error := some ("account_id required") }) := by
  simp [Executor.execute_tool, hn, ha]

theorem balance_tool_requires_account_id_witness :
    Executor.execute_tool (DB.mk [(1, 100)] []) "balance_check" {} "t"
      (fun _ => "") =
      (DB.mk [(1, 100)] [],
       { success := false, error := some ("account_id required") }) :=
  balance_tool_requires_account_id (DB.mk [(1, 100)] []) "balance_check" {}
    "t" (fun _ => "") (by decide) rfl

/-- C7: a tool name that does not normalize to one of the five canonical
operations is answered with a structured failure whose error text carries
both the literal tool name and its normalization (the executor is a total
function, mirroring the source's catch-all exception handler), and every
step of a plan contributes exactly one result, in order — so a failed
step never prevents the remaining steps from executing. -/
theorem executor_unknown_tool_and_plan_progress (db : DB) (tool_name : String)
    (parameters : Params) (now : String) (thof : Int → String)
    (steps : List Step)
    (h : normalizeTool tool_name ∉
      (["get_balance", "transfer_money", "get_transactions",
        "simulate_transaction", "get_insights"] : List String)) :
    Executor.execute_tool db tool_name parameters now thof =
      (db, { success := false,
             error := some ("Unknown tool: " ++ tool_name ++ " (normalized: " ++
               normalizeTool tool_name ++ ")") }) ∧
    ((Executor.execute_plan db steps now thof).2).map Prod.fst =
      steps.map (fun s => stepKey s.step_id) := by
  constructor
  · rw [List.mem_cons, List.mem_cons, List.mem_cons, List.mem_cons,
        List.mem_singleton] at h
    push_neg at h
    obtain ⟨h1, h2, h3, h4, h5⟩ := h
    simp [Executor.execute_tool, h1, h2, h3, h4, h5]
  · induction steps generalizing db with
    | nil => rfl
    | cons s rest ih =>
      simp only [Executor.execute_plan, List.map_cons]
      simp [ih]

theorem executor_unknown_tool_and_plan_progress_witness :
    (Executor.execute_tool (DB.mk [(1, 100)] []) "frobnicate" {} "t"
      (fun _ => "") =
      (DB.mk [(1, 100)] [],
       { success := false,
         error := some ("Unknown tool: " ++ "frobnicate" ++ " (normalized: " ++
           normalizeTool "frobnicate" ++ ")") })) ∧
    ((Executor.execute_plan (DB.mk [(1, 100)] [])
        [{ step_id := some 1, tool := some ("frobnicate") },
         { step_id := some 2, tool := none }] "t" (fun _ => "")).2).map
      Prod.fst =
      ([{ step_id := some 1, tool := some ("frobnicate") },
        { step_id := some 2, tool := none }] : List Step).map
        (fun s => stepKey s.step_id) :=
  executor_unknown_tool_and_plan_progress (DB.mk [(1, 100)] []) "frobnicate"
    {} "t" (fun _ => "")
    [{ step_id := some 1, tool := some ("frobnicate") },
     { step_id := some 2, tool := none }] (by decide)

end AIBanking
